import Mathlib

/-!
Verification of the push-notification backend (`src/backend/server.py`).

The backend keeps an in-memory list of push subscriptions, registers new
subscriptions (`subscribe`), broadcasts a notification to every stored
subscription (`test_notification`, `send_custom_notification`,
`send_notification_to_all`), derives the VAPID audience from an endpoint URL
(`get_vapid_claims`, via Python's `urllib.parse.urlparse`), and lists stored
subscriptions for debugging (`get_subscriptions`).

The embedding below mirrors the Python source.  The external `webpush` call
is the only true I/O boundary: its outcome for the i-th delivery attempt of a
broadcast is supplied by an oracle `Nat → Outcome`.  Everything else
(validation, registry mutation, counting, response bodies) is translated
directly from the source.
-/

/-- Outcome of one `webpush(...)` call, as observed by the `try/except`
blocks in `send_notification_to_all`:
* `success`      — the call returns normally;
* `webPushErr r` — a `WebPushException` is raised; `r` is
  `some e.response.status_code` when the exception carries a response
  object, `none` when `e.response` is `None`.  Truthiness of the response
  object (`requests.Response.__bool__`, i.e. `ok`) is a function of the
  status code alone and is modelled where the source tests it, in
  `attemptStep` via `responseTruthy`;
* `otherErr`     — any other exception (network failure, timeout, ...). -/
inductive Outcome
  | success
  | webPushErr (response : Option Nat)
  | otherErr
deriving DecidableEq

/-- One stored subscription record (the JSON dict appended to the global
`subscriptions` list).  `endpoint` is always present (validated at
registration), `keys` models the optional `keys` entry (its value is opaque
key material), `extra` models any remaining dict entries (opaque; they only
matter for Python dict equality in `subscriptions.remove`). -/
structure Subscription where
  endpoint : String
  keys : Option (List (String × String))
  extra : List (String × String)
deriving DecidableEq

/-- The JSON body of a `/subscribe` request (`request.json`), with every
field optional: `endpoint = none` models a dict without an `endpoint` key
(an empty dict is the special case with all fields absent). -/
structure SubJson where
  endpoint : Option String
  keys : Option (List (String × String))
  extra : List (String × String)
deriving DecidableEq

/-- The JSON body of a `/send-notification` request; `title`/`body` are
checked for presence, the rest is passed through opaquely. -/
structure NotifJson where
  title : Option String
  body : Option String
  extra : List (String × String)
deriving DecidableEq

instance {ε α : Type} [DecidableEq ε] [DecidableEq α] : DecidableEq (Except ε α)
  | Except.error a, Except.error b => decidable_of_iff (a = b) (by simp)
  | Except.error _, Except.ok _ => Decidable.isFalse (by simp)
  | Except.ok _, Except.error _ => Decidable.isFalse (by simp)
  | Except.ok a, Except.ok b => decidable_of_iff (a = b) (by simp)

/-- An error response `jsonify({'error': msg}), status`. -/
structure ErrResp where
  error : String
  status : Nat
deriving DecidableEq

/-- `jsonify({'error': 'Invalid subscription data'}), 400` (server.py:84). -/
def invalidSubscriptionErr : ErrResp := ⟨"Invalid subscription data", 400⟩

/-- `jsonify({'error': 'No subscriptions available'}), 400`
(server.py:112 and server.py:138). -/
def noSubscribersErr : ErrResp := ⟨"No subscriptions available", 400⟩

/-- `jsonify({'error': 'Notification must include title and body'}), 400`
(server.py:144). -/
def invalidPayloadErr : ErrResp := ⟨"Notification must include title and body", 400⟩

/-! ### Audience resolution (`get_vapid_claims`, server.py:60-71)

Modelled from the Python standard library: the fragment of
`urllib.parse.urlparse` that `get_vapid_claims` observes, namely the
`scheme` and `netloc` components.  CPython splits off `scheme` when the text
before the first `:` is non-empty, starts with an ASCII letter and consists
of letters, digits, `+`, `-`, `.` (the scheme is lowercased); `netloc` is
the text after a leading `//` up to the first `/`, `?` or `#`; a netloc
containing `[` without `]` (or vice versa) raises `ValueError`
("Invalid IPv6 URL"). -/

/-- Characters allowed in a URL scheme after the initial letter. -/
def isSchemeChar (c : Char) : Bool :=
  c.isAlpha || c.isDigit || c == '+' || c == '-' || c == '.'

/-- Split a character list at the first `:`; `none` when there is no colon.
Returns the part before the colon and the part after it. -/
def splitColon : List Char → Option (List Char × List Char)
  | [] => none
  | c :: cs =>
    if c == ':' then some ([], cs)
    else match splitColon cs with
      | none => none
      | some (pre, post) => some (c :: pre, post)

/-- The `scheme`/`netloc`/remainder split performed by `urlparse`; the
remainder (path, query, fragment) is kept unsplit because
`get_vapid_claims` never looks at it. -/
structure UrlParts where
  scheme : String
  netloc : String
  rest : String
deriving DecidableEq

/-- The scheme/netloc fragment of CPython's `urlparse`.  `Except.error`
models the `ValueError` raised on an unbalanced-bracket netloc. -/
def urlparse (url : String) : Except String UrlParts :=
  let cs := url.data
  let (scheme, rest) :=
    match splitColon cs with
    | some (pre, post) =>
      if pre ≠ [] ∧ (pre.headD ' ').isAlpha ∧ pre.all isSchemeChar then
        (pre.map Char.toLower, post)
      else ([], cs)
    | none => ([], cs)
  match rest with
  | '/' :: '/' :: tail =>
    let netloc := tail.takeWhile (fun c => ¬(c == '/' || c == '?' || c == '#'))
    let remainder := tail.dropWhile (fun c => ¬(c == '/' || c == '?' || c == '#'))
    if (netloc.contains '[' && !netloc.contains ']')
        || (netloc.contains ']' && !netloc.contains '[') then
      Except.error "Invalid IPv6 URL"
    else
      Except.ok ⟨String.mk scheme, String.mk netloc, String.mk remainder⟩
  | _ => Except.ok ⟨String.mk scheme, "", String.mk rest⟩

/-- The VAPID claims dict built by `get_vapid_claims`. -/
structure VapidClaims where
  sub : String
  aud : String
deriving DecidableEq

/-- `get_vapid_claims(subscription_endpoint)` (server.py:60-71):
`urlparse` the endpoint and return
`{"sub": VAPID_EMAIL, "aud": f"{scheme}://{netloc}"}`.  The sender email is
a startup configuration value, passed here as a parameter. -/
def get_vapid_claims (email : String) (subscription_endpoint : String) :
    Except String VapidClaims :=
  match urlparse subscription_endpoint with
  | Except.error e => Except.error e
  | Except.ok p => Except.ok ⟨email, p.scheme ++ "://" ++ p.netloc⟩

/-- Modelled from the spec: "given an endpoint URL string, parse it as a URL
and return the audience as `<scheme>://<host>[:port]` — the origin, with
path/query/fragment discarded. Fails with `InvalidEndpoint` if the string is
not a parseable absolute URL (missing scheme or host)."  Used only to
compare the spec's contract with `get_vapid_claims`; `none` is the
`InvalidEndpoint` failure. -/
def resolveAudienceSpec (endpoint : String) : Option String :=
  match urlparse endpoint with
  | Except.error _ => none
  | Except.ok p =>
    if p.scheme = "" ∨ p.netloc = "" then none
    else some (p.scheme ++ "://" ++ p.netloc)

/-! ### Registration (`subscribe`, server.py:74-103) -/

/-- The success body of `/subscribe`:
`jsonify({'success': True, 'message': ..., 'total_subscriptions': ...}), 201`. -/
structure SubResp where
  success : Bool
  message : String
  total_subscriptions : Nat
  status : Nat
deriving DecidableEq

/-- Result of one `/subscribe` call: the HTTP response, whether the
subscription was appended (observable as which of the two log lines is
printed, server.py:90/93), and the registry afterwards. -/
structure SubscribeOutput where
  result : Except ErrResp SubResp
  added : Bool
  registry : List Subscription
deriving DecidableEq

/-- `subscribe()` (server.py:74-103).  `data = none` models a `null` body;
a body whose dict is empty or lacks the `endpoint` key is rejected by
`if not subscription_data or 'endpoint' not in subscription_data`
(both conditions produce the same 400 response, so the model folds the
dict-emptiness test into `endpoint = none`).  Note the source never checks
that the endpoint value is non-empty. -/
def subscribe (data : Option SubJson) (regs : List Subscription) : SubscribeOutput :=
  match data with
  | none => ⟨Except.error invalidSubscriptionErr, false, regs⟩
  | some j =>
    match j.endpoint with
    | none => ⟨Except.error invalidSubscriptionErr, false, regs⟩
    | some e =>
      if regs.any (fun s => s.endpoint == e) then
        ⟨Except.ok ⟨true, "Subscription received", regs.length, 201⟩, false, regs⟩
      else
        ⟨Except.ok ⟨true, "Subscription received",
            (regs ++ [Subscription.mk e j.keys j.extra]).length, 201⟩,
          true, regs ++ [Subscription.mk e j.keys j.extra]⟩

/-! ### Broadcast (`send_notification_to_all`, server.py:153-197, and the
two routes that invoke it, server.py:106-150) -/

/-- Python's `endpoint[:50]`: the first 50 code points. -/
def truncEp (s : String) : String := String.mk (s.data.take 50)

/-- Python's `list.remove(a)`: delete the first element equal to `a`.
(CPython raises `ValueError` when `a` is absent; in `send_notification_to_all`
the removed element always comes from a snapshot copy of the very list being
mutated, so it is always present — `spec_c10` proves the length bookkeeping
that rests on this.) -/
def removeFirst {α : Type} [DecidableEq α] (l : List α) (a : α) : List α :=
  match l with
  | [] => []
  | x :: xs => if x = a then xs else x :: removeFirst xs a

/-- Number of occurrences of `a` in `l` (multiplicity, for the removal
bookkeeping). -/
def countOcc {α : Type} [DecidableEq α] (a : α) : List α → Nat
  | [] => 0
  | x :: xs => (if x = a then 1 else 0) + countOcc a xs

/-- The mutable state threaded through the `for subscription in
subscriptions[:]` loop: the four locals of `send_notification_to_all`
(`success_count`, `failure_count`, `failed_subscriptions`, and the global
`subscriptions` list being mutated), plus the trace of endpoints for which
`webpush(...)` was actually invoked (the delivery attempts). -/
structure SendState where
  success_count : Nat
  failure_count : Nat
  failed_subscriptions : List String
  registry : List Subscription
  attempted : List String
deriving DecidableEq

/-- Truthiness of a `requests.Response` object: `__bool__` returns `ok`,
which is `False` exactly when `raise_for_status()` would raise, i.e. for
status codes 400-599.  In particular a 404 or 410 response is falsy. -/
def responseTruthy (status_code : Nat) : Bool :=
  decide (status_code < 400) || decide (600 ≤ status_code)

/-- One iteration of the broadcast loop body (server.py:161-188) for
subscription `sub`, given the outcome `out` of the `webpush` call:
* if `get_vapid_claims` raises (bracket `ValueError`), the generic
  `except Exception` catches it — counted as failed, `webpush` never called;
* on success, `success_count += 1`;
* on `WebPushException`, `failure_count += 1`, and when
  `e.response and e.response.status_code in [404, 410]` (server.py:181) —
  i.e. the response is present, truthy (`responseTruthy`), and has status
  404 or 410 — the subscription is removed and its truncated endpoint
  appended to `failed_subscriptions`.  Since a 404/410 response is falsy,
  no status code satisfies this conjunction and the branch is dead code
  (`removal_guard_unsat`);
* on any other exception, `failure_count += 1`. -/
def attemptStep (email : String) (out : Outcome) (st : SendState) (sub : Subscription) :
    SendState :=
  match get_vapid_claims email sub.endpoint with
  | Except.error _ => { st with failure_count := st.failure_count + 1 }
  | Except.ok _ =>
    let st := { st with attempted := st.attempted ++ [sub.endpoint] }
    match out with
    | Outcome.success => { st with success_count := st.success_count + 1 }
    | Outcome.webPushErr response =>
      let st := { st with failure_count := st.failure_count + 1 }
      match response with
      | some code =>
        if responseTruthy code = true ∧ (code = 404 ∨ code = 410) then
          { st with registry := removeFirst st.registry sub,
                    failed_subscriptions := st.failed_subscriptions ++ [truncEp sub.endpoint] }
        else st
      | none => st
    | Outcome.otherErr => { st with failure_count := st.failure_count + 1 }

/-- The broadcast loop over the snapshot `subscriptions[:]`; `i` is the
index of the current attempt, used to query the oracle. -/
def sendLoop (email : String) (oracle : Nat → Outcome) :
    Nat → List Subscription → SendState → SendState
  | _, [], st => st
  | i, sub :: rest, st => sendLoop email oracle (i + 1) rest (attemptStep email (oracle i) st sub)

/-- The body of the 200 response built at server.py:190-197. -/
structure SendResp where
  success : Bool
  message : String
  success_count : Nat
  failure_count : Nat
  total_subscriptions : Nat
  failed_subscriptions : List String
  status : Nat
deriving DecidableEq

/-- Result of `send_notification_to_all`: the response body plus the
registry afterwards and the trace of attempted endpoints. -/
structure SendOutput where
  resp : SendResp
  registry : List Subscription
  attempted : List String
deriving DecidableEq

/-- `send_notification_to_all(notification_data)` (server.py:153-197).
The payload is serialized and handed to `webpush` unchanged for every
destination; the per-attempt outcome is supplied by `oracle`. -/
def send_notification_to_all (email : String) (notification_data : NotifJson)
    (regs : List Subscription) (oracle : Nat → Outcome) : SendOutput :=
  let _ := notification_data
  let final := sendLoop email oracle 0 regs ⟨0, 0, [], regs, []⟩
  ⟨⟨true, "Notification sent to " ++ toString final.success_count ++ " client(s)",
      final.success_count, final.failure_count, final.registry.length,
      final.failed_subscriptions, 200⟩,
    final.registry, final.attempted⟩

/-- Result of one broadcast route call: the HTTP response (error or the
aggregate body), the endpoints attempted, and the registry afterwards. -/
structure RouteOutput where
  result : Except ErrResp SendResp
  attempted : List String
  registry : List Subscription
deriving DecidableEq

/-- The fixed payload built by `test_notification` (server.py:114-121);
the `data.timestamp` entry is a runtime value (`os.times()`), which the
dispatch never inspects, so it is omitted from the opaque extras. -/
def testPayload : NotifJson :=
  ⟨some "Test Notification",
   some "This is a test notification from your Python backend!",
   [("icon", "/pwa-192x192.png")]⟩

/-- `test_notification()` (server.py:106-123): reject with 400 when the
registry is empty, otherwise broadcast the fixed test payload. -/
def test_notification (email : String) (regs : List Subscription)
    (oracle : Nat → Outcome) : RouteOutput :=
  if regs.isEmpty then ⟨Except.error noSubscribersErr, [], regs⟩
  else
    let out := send_notification_to_all email testPayload regs oracle
    ⟨Except.ok out.resp, out.attempted, out.registry⟩

/-- `send_custom_notification()` (server.py:126-150): reject with 400 when
the registry is empty (checked first, server.py:137); then reject with 400
when the body is `null`/empty or lacks `title` or `body` (an empty dict is
falsy in Python and has both fields absent, so it lands in the same 400);
otherwise broadcast the given payload. -/
def send_custom_notification (email : String) (regs : List Subscription)
    (data : Option NotifJson) (oracle : Nat → Outcome) : RouteOutput :=
  if regs.isEmpty then ⟨Except.error noSubscribersErr, [], regs⟩
  else
    match data with
    | none => ⟨Except.error invalidPayloadErr, [], regs⟩
    | some d =>
      if d.title.isNone || d.body.isNone then ⟨Except.error invalidPayloadErr, [], regs⟩
      else
        let out := send_notification_to_all email d regs oracle
        ⟨Except.ok out.resp, out.attempted, out.registry⟩

/-! ### Subscription listing (`get_subscriptions`, server.py:200-214) -/

/-- The body of the `/subscriptions` response: the total and, per stored
subscription, `sub['endpoint'][:50] + '...'` and `'keys' in sub`. -/
structure SubsListResp where
  total : Nat
  subscriptions : List (String × Bool)
deriving DecidableEq

/-- `get_subscriptions()` (server.py:200-214). -/
def get_subscriptions (regs : List Subscription) : SubsListResp :=
  ⟨regs.length, regs.map (fun sub => (truncEp sub.endpoint ++ "...", sub.keys.isSome))⟩

/-- The loop invariant relating the not-yet-processed tail of the snapshot
to the live registry: every subscription still occurs in the registry at
least as often as in the tail.  It holds initially because the snapshot
`subscriptions[:]` is an exact copy of the registry, and it is what makes
every `subscriptions.remove(subscription)` hit a present element. -/
def regInv (l : List Subscription) (st : SendState) : Prop :=
  ∀ a, countOcc a l ≤ countOcc a st.registry

/-! ### Helper lemmas -/

theorem countOcc_removeFirst_self {α : Type} [DecidableEq α] (a : α) (l : List α) :
    countOcc a (removeFirst l a) = countOcc a l - 1 := by
  induction l with
  | nil => simp [removeFirst, countOcc]
  | cons x xs ih =>
    by_cases h : x = a
    · simp [removeFirst, countOcc, h]
    · simp [removeFirst, countOcc, h, ih]

theorem countOcc_removeFirst_ne {α : Type} [DecidableEq α] {a b : α} (h : b ≠ a)
    (l : List α) : countOcc b (removeFirst l a) = countOcc b l := by
  induction l with
  | nil => simp [removeFirst]
  | cons x xs ih =>
    by_cases hx : x = a
    · subst hx
      have hxb : ¬x = b := fun hc => h hc.symm
      simp [removeFirst, countOcc, hxb]
    · simp [removeFirst, countOcc, hx, ih]

theorem mem_of_countOcc_pos {α : Type} [DecidableEq α] {a : α} {l : List α}
    (h : 0 < countOcc a l) : a ∈ l := by
  induction l with
  | nil => simp [countOcc] at h
  | cons x xs ih =>
    by_cases hx : x = a
    · exact hx ▸ List.mem_cons_self x xs
    · simp [countOcc, hx] at h
      exact List.mem_cons_of_mem x (ih h)

theorem length_removeFirst_of_mem {α : Type} [DecidableEq α] {a : α} {l : List α}
    (h : a ∈ l) : (removeFirst l a).length + 1 = l.length := by
  induction l with
  | nil => cases h
  | cons x xs ih =>
    by_cases hx : x = a
    · simp [removeFirst, hx]
    · have hmem : a ∈ xs := by
        cases List.mem_cons.mp h with
        | inl heq => exact absurd heq.symm hx
        | inr hm => exact hm
      simp [removeFirst, hx]
      exact ih hmem

/-- Every iteration of the broadcast loop increments exactly one of the two
counters: either the success counter or the failure counter. -/
theorem attemptStep_counts (email : String) (out : Outcome) (st : SendState)
    (sub : Subscription) :
    (attemptStep email out st sub).success_count + (attemptStep email out st sub).failure_count
      = st.success_count + st.failure_count + 1 := by
  unfold attemptStep
  cases hg : get_vapid_claims email sub.endpoint with
  | error e => simp; omega
  | ok cl =>
    cases out with
    | success => simp; omega
    | webPushErr response =>
      cases response with
      | none => simp; omega
      | some code =>
        by_cases hc : responseTruthy code = true ∧ (code = 404 ∨ code = 410)
        · simp [hc]; omega
        · simp [hc]; omega
    | otherErr => simp; omega

/-- Every iteration of the broadcast loop either leaves the registry and the
removed-endpoint list untouched, or removes the current subscription and
appends its truncated endpoint. -/
theorem attemptStep_registry (email : String) (out : Outcome) (st : SendState)
    (sub : Subscription) :
    ((attemptStep email out st sub).registry = st.registry
      ∧ (attemptStep email out st sub).failed_subscriptions = st.failed_subscriptions)
    ∨ ((attemptStep email out st sub).registry = removeFirst st.registry sub
      ∧ (attemptStep email out st sub).failed_subscriptions
          = st.failed_subscriptions ++ [truncEp sub.endpoint]) := by
  unfold attemptStep
  cases hg : get_vapid_claims email sub.endpoint with
  | error e => left; simp
  | ok cl =>
    cases out with
    | success => left; simp
    | webPushErr response =>
      cases response with
      | none => left; simp
      | some code =>
        by_cases hc : responseTruthy code = true ∧ (code = 404 ∨ code = 410)
        · right; simp [hc]
        · left; simp [hc]
    | otherErr => left; simp

/-- One loop iteration preserves the invariant and the sum
`|registry| + |failed_subscriptions|`: a removal shrinks the registry by
exactly one element and records exactly one endpoint. -/
theorem attemptStep_inv (email : String) (out : Outcome) (st : SendState)
    (sub : Subscription) (rest : List Subscription) (h : regInv (sub :: rest) st) :
    regInv rest (attemptStep email out st sub) ∧
    (attemptStep email out st sub).registry.length
      + (attemptStep email out st sub).failed_subscriptions.length
      = st.registry.length + st.failed_subscriptions.length := by
  rcases attemptStep_registry email out st sub with ⟨h1, h2⟩ | ⟨h1, h2⟩
  · constructor
    · intro a
      rw [h1]
      refine le_trans ?_ (h a)
      simp [countOcc]
    · rw [h1, h2]
  · have hpos : 0 < countOcc sub st.registry :=
      lt_of_lt_of_le (by simp [countOcc]) (h sub)
    have hmem := mem_of_countOcc_pos hpos
    constructor
    · intro a
      by_cases ha : a = sub
      · subst ha
        rw [h1, countOcc_removeFirst_self]
        have hha := h a
        simp [countOcc] at hha
        omega
      · rw [h1, countOcc_removeFirst_ne ha]
        refine le_trans ?_ (h a)
        simp [countOcc]
    · rw [h1, h2]
      have hlen := length_removeFirst_of_mem hmem
      simp
      omega

/-- Over the whole loop, the two counters increase by exactly the snapshot
length: every snapshot entry is counted exactly once. -/
theorem sendLoop_counts (email : String) (oracle : Nat → Outcome) (l : List Subscription) :
    ∀ (i : Nat) (st : SendState),
      (sendLoop email oracle i l st).success_count
        + (sendLoop email oracle i l st).failure_count
      = st.success_count + st.failure_count + l.length := by
  induction l with
  | nil => intro i st; simp [sendLoop]
  | cons sub rest ih =>
    intro i st
    simp only [sendLoop]
    rw [ih]
    have h := attemptStep_counts email (oracle i) st sub
    simp only [List.length_cons]
    omega

/-- Over the whole loop, `|registry| + |failed_subscriptions|` is constant:
each recorded removal shrinks the registry by exactly one element. -/
theorem sendLoop_registry_len (email : String) (oracle : Nat → Outcome)
    (l : List Subscription) :
    ∀ (i : Nat) (st : SendState), regInv l st →
      (sendLoop email oracle i l st).registry.length
        + (sendLoop email oracle i l st).failed_subscriptions.length
      = st.registry.length + st.failed_subscriptions.length := by
  induction l with
  | nil => intro i st _; simp [sendLoop]
  | cons sub rest ih =>
    intro i st h
    simp only [sendLoop]
    obtain ⟨hinv, hlen⟩ := attemptStep_inv email (oracle i) st sub rest h
    rw [ih _ _ hinv, hlen]

/-- The removal guard translated from server.py:181 is unsatisfiable: a 404
or 410 response is a 4xx response, hence falsy, so
`e.response and e.response.status_code in [404, 410]` never holds. -/
theorem removal_guard_unsat (code : Nat) :
    ¬(responseTruthy code = true ∧ (code = 404 ∨ code = 410)) := by
  rintro ⟨ht, hc⟩
  rcases hc with rfl | rfl <;> simp [responseTruthy] at ht

/-- No iteration of the broadcast loop ever mutates the registry or the
removed-endpoint list: the removal branch is dead code. -/
theorem attemptStep_registry_const (email : String) (out : Outcome) (st : SendState)
    (sub : Subscription) :
    (attemptStep email out st sub).registry = st.registry
    ∧ (attemptStep email out st sub).failed_subscriptions = st.failed_subscriptions := by
  unfold attemptStep
  cases hg : get_vapid_claims email sub.endpoint with
  | error e => simp
  | ok cl =>
    cases out with
    | success => simp
    | webPushErr response =>
      cases response with
      | none => simp
      | some code => simp [removal_guard_unsat code]
    | otherErr => simp

/-- Over a whole broadcast loop the registry and the removed-endpoint list
are unchanged. -/
theorem sendLoop_registry_const (email : String) (oracle : Nat → Outcome)
    (l : List Subscription) :
    ∀ (i : Nat) (st : SendState),
      (sendLoop email oracle i l st).registry = st.registry
      ∧ (sendLoop email oracle i l st).failed_subscriptions = st.failed_subscriptions := by
  induction l with
  | nil => intro i st; exact ⟨rfl, rfl⟩
  | cons sub rest ih =>
    intro i st
    simp only [sendLoop]
    obtain ⟨h1, h2⟩ := ih (i + 1) (attemptStep email (oracle i) st sub)
    obtain ⟨g1, g2⟩ := attemptStep_registry_const email (oracle i) st sub
    exact ⟨h1.trans g1, h2.trans g2⟩

/-! ### Claim theorems -/

/-- C3 (counterexample): the claim says a non-parseable endpoint (missing
scheme or host) makes audience resolution fail, but `get_vapid_claims`
never fails on such inputs: on the empty string — which has neither scheme
nor host, so the spec-side resolver rejects it — the code returns the
degenerate audience `"://"`. -/
theorem spec_c3_counterexample :
    resolveAudienceSpec "" = none
    ∧ get_vapid_claims "mailto:admin@example.com" ""
        = Except.ok ⟨"mailto:admin@example.com", "://"⟩ :=
  ⟨by decide, by decide⟩

/-- C3 (amended): for every endpoint on which the spec-side resolver
succeeds (a parseable URL with a scheme and a non-empty host part), the
code returns exactly that origin as the audience; but a malformed endpoint
(missing scheme or host) does not fail — the missing components default to
empty and a degenerate audience such as `"://"` is returned. -/
theorem spec_c3 :
    (∀ (email endpoint audience : String),
        resolveAudienceSpec endpoint = some audience →
        get_vapid_claims email endpoint = Except.ok ⟨email, audience⟩)
    ∧ (∀ email : String, get_vapid_claims email "" = Except.ok ⟨email, "://"⟩) := by
  constructor
  · intro em ep aud h
    unfold resolveAudienceSpec at h
    unfold get_vapid_claims
    cases hu : urlparse ep with
    | error e => rw [hu] at h; cases h
    | ok p =>
      rw [hu] at h
      by_cases hc : p.scheme = "" ∨ p.netloc = ""
      · simp [hc] at h
      · simp [hc] at h
        show (Except.ok ⟨em, p.scheme ++ "://" ++ p.netloc⟩ : Except String VapidClaims)
          = Except.ok ⟨em, aud⟩
        rw [h]
  · intro em
    rfl

/-- C3 (witness): a concrete well-formed endpoint, its origin, and the
agreement of code and spec-side resolver on it. -/
theorem spec_c3_witness :
    resolveAudienceSpec "https://fcm.googleapis.com/fcm/send/abc123"
        = some "https://fcm.googleapis.com"
    ∧ get_vapid_claims "mailto:push@example.org" "https://fcm.googleapis.com/fcm/send/abc123"
        = Except.ok ⟨"mailto:push@example.org", "https://fcm.googleapis.com"⟩ :=
  ⟨by decide, spec_c3.1 "mailto:push@example.org" _ _ (by decide)⟩

/-- C4: registration is idempotent per endpoint — registering an endpoint
that is already present leaves the registry unchanged, takes the
`added=false` branch, and returns the current total; every successful call
reports the current total; and registration preserves distinctness of
endpoints, so at most one subscription per endpoint is ever held. -/
theorem spec_c4 :
    (∀ (regs : List Subscription) (j : SubJson) (e : String),
        j.endpoint = some e → (∃ s ∈ regs, s.endpoint = e) →
        (subscribe (some j) regs).registry = regs
        ∧ (subscribe (some j) regs).added = false
        ∧ (subscribe (some j) regs).result
            = Except.ok ⟨true, "Subscription received", regs.length, 201⟩)
    ∧ (∀ (data : Option SubJson) (regs : List Subscription) (r : SubResp),
        (subscribe data regs).result = Except.ok r →
        r.total_subscriptions = (subscribe data regs).registry.length)
    ∧ (∀ (data : Option SubJson) (regs : List Subscription),
        (regs.map Subscription.endpoint).Nodup →
        ((subscribe data regs).registry.map Subscription.endpoint).Nodup) := by
  refine ⟨?_, ?_, ?_⟩
  · intro regs j e hj hex
    have hany : regs.any (fun s => s.endpoint == e) = true := by
      rw [List.any_eq_true]
      obtain ⟨s, hs, he⟩ := hex
      exact ⟨s, hs, by simp [he]⟩
    simp [subscribe, hj, hany]
  · intro data regs r h
    cases data with
    | none => simp [subscribe] at h
    | some j =>
      cases hj : j.endpoint with
      | none => simp [subscribe, hj] at h
      | some e =>
        by_cases hany : regs.any (fun s => s.endpoint == e) = true
        · have hres : (subscribe (some j) regs).result
              = Except.ok (⟨true, "Subscription received", regs.length, 201⟩ : SubResp) := by
            simp [subscribe, hj, hany]
          rw [hres] at h
          have hr := (Except.ok.inj h).symm
          subst hr
          simp [subscribe, hj, hany]
        · have hres : (subscribe (some j) regs).result
              = Except.ok (⟨true, "Subscription received",
                  (regs ++ [Subscription.mk e j.keys j.extra]).length, 201⟩ : SubResp) := by
            simp [subscribe, hj, hany]
          rw [hres] at h
          have hr := (Except.ok.inj h).symm
          subst hr
          simp [subscribe, hj, hany]
  · intro data regs hnd
    cases data with
    | none => simpa [subscribe] using hnd
    | some j =>
      cases hj : j.endpoint with
      | none => simpa [subscribe, hj] using hnd
      | some e =>
        by_cases hany : regs.any (fun s => s.endpoint == e) = true
        · simpa [subscribe, hj, hany] using hnd
        · have hnotin : ∀ s ∈ regs, s.endpoint ≠ e := by
            intro s hs hse
            exact hany (by rw [List.any_eq_true]; exact ⟨s, hs, by simp [hse]⟩)
          simp only [subscribe, hj, hany]
          simp only [Bool.false_eq_true, if_false, List.map_append, List.map_cons, List.map_nil]
          rw [List.nodup_append]
          refine ⟨hnd, List.nodup_singleton e, ?_⟩
          intro a ha hb
          simp only [List.mem_singleton] at hb
          subst hb
          obtain ⟨s, hs, hse⟩ := List.mem_map.mp ha
          exact hnotin s hs hse

/-- C4 (witness): registering a concretely already-present endpoint is a
no-op that reports the unchanged total. -/
theorem spec_c4_witness :
    (subscribe (some ⟨some "https://push.example/one", some [("auth", "k2")], []⟩)
        [⟨"https://push.example/one", some [("auth", "k1")], []⟩]).registry
      = [⟨"https://push.example/one", some [("auth", "k1")], []⟩]
    ∧ (subscribe (some ⟨some "https://push.example/one", some [("auth", "k2")], []⟩)
        [⟨"https://push.example/one", some [("auth", "k1")], []⟩]).added = false
    ∧ (subscribe (some ⟨some "https://push.example/one", some [("auth", "k2")], []⟩)
        [⟨"https://push.example/one", some [("auth", "k1")], []⟩]).result
      = Except.ok ⟨true, "Subscription received", 1, 201⟩ :=
  spec_c4.1 [⟨"https://push.example/one", some [("auth", "k1")], []⟩]
    ⟨some "https://push.example/one", some [("auth", "k2")], []⟩
    "https://push.example/one" rfl
    ⟨⟨"https://push.example/one", some [("auth", "k1")], []⟩, by simp, rfl⟩

/-- C5: a broadcast (test or custom) against the empty registry fails with
the no-subscribers 400 error, performs no delivery attempt (no `webpush`
call), and leaves the registry unchanged (empty). -/
theorem spec_c5 (email : String) (oracle : Nat → Outcome) (data : Option NotifJson) :
    test_notification email [] oracle = ⟨Except.error noSubscribersErr, [], []⟩
    ∧ send_custom_notification email [] data oracle = ⟨Except.error noSubscribersErr, [], []⟩ :=
  ⟨rfl, rfl⟩

/-- C6 (counterexample): the claim says an empty-string endpoint is rejected
with the invalid-subscription error, but the source only checks for presence
of the `endpoint` key: registering `{'endpoint': ''}` succeeds with a 201
and appends the subscription. -/
theorem spec_c6_counterexample :
    (subscribe (some ⟨some "", none, []⟩) ([] : List Subscription)).result
        = Except.ok ⟨true, "Subscription received", 1, 201⟩
    ∧ (subscribe (some ⟨some "", none, []⟩) ([] : List Subscription)).registry
        = [⟨"", none, []⟩] :=
  ⟨by decide, by decide⟩

/-- C6 (amended): registration fails with the invalid-subscription 400 and
leaves the registry untouched when the request body is absent/empty or has
no `endpoint` key; an empty-string endpoint value, however, passes the check
and is registered like any other endpoint. -/
theorem spec_c6 :
    (∀ regs : List Subscription,
        (subscribe none regs).result = Except.error invalidSubscriptionErr
        ∧ (subscribe none regs).registry = regs)
    ∧ (∀ (regs : List Subscription) (j : SubJson), j.endpoint = none →
        (subscribe (some j) regs).result = Except.error invalidSubscriptionErr
        ∧ (subscribe (some j) regs).registry = regs) := by
  constructor
  · intro regs
    exact ⟨rfl, rfl⟩
  · intro regs j hj
    constructor <;> simp [subscribe, hj]

/-- C6 (witness): a concrete body without an `endpoint` key is rejected and
the registry is unchanged. -/
theorem spec_c6_witness :
    (subscribe (some ⟨none, some [("auth", "k")], []⟩)
        [⟨"https://push.example/one", none, []⟩]).result
      = Except.error invalidSubscriptionErr
    ∧ (subscribe (some ⟨none, some [("auth", "k")], []⟩)
        [⟨"https://push.example/one", none, []⟩]).registry
      = [⟨"https://push.example/one", none, []⟩] :=
  spec_c6.2 [⟨"https://push.example/one", none, []⟩] ⟨none, some [("auth", "k")], []⟩ rfl

/-- C7 (counterexample): the claim says every custom-notification request
whose payload lacks `title` or `body` fails with the invalid-payload error,
but the empty-registry check runs first (server.py:137 before
server.py:143): with an empty registry and a payload missing `body`, the
call fails with the no-subscribers error instead. -/
theorem spec_c7_counterexample :
    (send_custom_notification "mailto:a@b.c" [] (some ⟨some "Title", none, []⟩)
        (fun _ => Outcome.success)).result = Except.error noSubscribersErr
    ∧ noSubscribersErr ≠ invalidPayloadErr :=
  ⟨rfl, by decide⟩

/-- C7 (amended): once the registry is non-empty, a custom-notification
request whose payload is absent or lacks `title` or `body` fails with the
invalid-payload 400, performs zero delivery attempts, and leaves the
registry unchanged; with an empty registry the no-subscribers check fires
first. -/
theorem spec_c7 (email : String) (regs : List Subscription)
    (data : Option NotifJson) (oracle : Nat → Outcome) (hne : regs ≠ [])
    (hbad : data = none ∨ ∃ d, data = some d ∧ (d.title = none ∨ d.body = none)) :
    (send_custom_notification email regs data oracle).result = Except.error invalidPayloadErr
    ∧ (send_custom_notification email regs data oracle).attempted = []
    ∧ (send_custom_notification email regs data oracle).registry = regs := by
  have hem : regs.isEmpty = false := by
    cases regs with
    | nil => exact absurd rfl hne
    | cons x xs => rfl
  rcases hbad with rfl | ⟨d, rfl, hd⟩
  · simp [send_custom_notification, hem]
  · have hdb : (d.title.isNone || d.body.isNone) = true := by
      rcases hd with h | h <;> simp [h]
    simp [send_custom_notification, hem, hdb]

/-- C7 (witness): a concrete payload missing `body` against a concrete
one-subscription registry. -/
theorem spec_c7_witness :
    (send_custom_notification "mailto:a@b.c" [⟨"https://push.example/one", none, []⟩]
        (some ⟨some "Title", none, []⟩) (fun _ => Outcome.success)).result
      = Except.error invalidPayloadErr
    ∧ (send_custom_notification "mailto:a@b.c" [⟨"https://push.example/one", none, []⟩]
        (some ⟨some "Title", none, []⟩) (fun _ => Outcome.success)).attempted = []
    ∧ (send_custom_notification "mailto:a@b.c" [⟨"https://push.example/one", none, []⟩]
        (some ⟨some "Title", none, []⟩) (fun _ => Outcome.success)).registry
      = [⟨"https://push.example/one", none, []⟩] :=
  spec_c7 "mailto:a@b.c" [⟨"https://push.example/one", none, []⟩]
    (some ⟨some "Title", none, []⟩) (fun _ => Outcome.success)
    (by decide) (Or.inr ⟨⟨some "Title", none, []⟩, rfl, Or.inr rfl⟩)

/-- C9: the subscription listing reports the total and, per subscription,
only the truncated endpoint and a key-presence flag — its output is a
function of endpoints and key-presence alone, so two registries differing
only in key material (or other opaque fields) produce identical output. -/
theorem spec_c9 (r1 r2 : List Subscription)
    (h : r1.map (fun s => (s.endpoint, s.keys.isSome))
        = r2.map (fun s => (s.endpoint, s.keys.isSome))) :
    get_subscriptions r1 = get_subscriptions r2
    ∧ (get_subscriptions r1).total = r1.length := by
  have key : ∀ r : List Subscription,
      r.map (fun sub => (truncEp sub.endpoint ++ "...", sub.keys.isSome))
        = (r.map (fun s => (s.endpoint, s.keys.isSome))).map
            (fun p => (truncEp p.1 ++ "...", p.2)) := by
    intro r
    rw [List.map_map]
    rfl
  have hlen : r1.length = r2.length := by
    have hl := congrArg List.length h
    simpa using hl
  constructor
  · unfold get_subscriptions
    rw [key r1, key r2, h, hlen]
  · rfl

/-- C9 (witness): two concrete one-subscription registries with the same
endpoint and key-presence but different key values produce identical
listings. -/
theorem spec_c9_witness :
    get_subscriptions [⟨"https://push.example/one", some [("auth", "secretA")], []⟩]
      = get_subscriptions [⟨"https://push.example/one", some [("auth", "secretB")], []⟩]
    ∧ (get_subscriptions [⟨"https://push.example/one", some [("auth", "secretA")], []⟩]).total
      = 1 :=
  spec_c9 [⟨"https://push.example/one", some [("auth", "secretA")], []⟩]
    [⟨"https://push.example/one", some [("auth", "secretB")], []⟩] (by decide)

/-- C1 (code bug): the claim matches the source's evident intent — the
comment "Remove invalid subscriptions (e.g., expired or unsubscribed)" and
the "Removed invalid subscription" log line (server.py:180-184) — but the
guard `e.response and e.response.status_code in [404, 410]` can never be
true: `requests.Response.__bool__` is `ok`, which is `False` for every
4xx/5xx status, so a 404 or 410 response is falsy and the `and`
short-circuits.  Evaluating the code at the failing input: a rejection
whose response has status 410 (or 404) is merely counted as failed and the
subscription is retained; indeed no delivery attempt — whatever its
outcome — ever mutates the registry or the removed-endpoint list, over a
single step or a whole broadcast. -/
theorem spec_c1 (email : String) (payload : NotifJson) (regs : List Subscription)
    (oracle : Nat → Outcome) (out : Outcome) (st : SendState) (sub : Subscription) :
    (attemptStep email out st sub).registry = st.registry
    ∧ (attemptStep email out st sub).failed_subscriptions = st.failed_subscriptions
    ∧ (attemptStep email (Outcome.webPushErr (some 410)) st sub).failure_count
        = st.failure_count + 1
    ∧ (attemptStep email (Outcome.webPushErr (some 404)) st sub).failure_count
        = st.failure_count + 1
    ∧ (send_notification_to_all email payload regs oracle).registry = regs
    ∧ (send_notification_to_all email payload regs oracle).resp.failed_subscriptions = [] := by
  obtain ⟨h1, h2⟩ := attemptStep_registry_const email out st sub
  refine ⟨h1, h2, ?_, ?_, ?_, ?_⟩
  · cases hg : get_vapid_claims email sub.endpoint with
    | error e => simp [attemptStep, hg]
    | ok cl => simp [attemptStep, hg, responseTruthy]
  · cases hg : get_vapid_claims email sub.endpoint with
    | error e => simp [attemptStep, hg]
    | ok cl => simp [attemptStep, hg, responseTruthy]
  · show (sendLoop email oracle 0 regs ⟨0, 0, [], regs, []⟩).registry = regs
    exact (sendLoop_registry_const email oracle regs 0 ⟨0, 0, [], regs, []⟩).1
  · show (sendLoop email oracle 0 regs ⟨0, 0, [], regs, []⟩).failed_subscriptions = []
    exact (sendLoop_registry_const email oracle regs 0 ⟨0, 0, [], regs, []⟩).2

/-- C2 (code bug): broadcasting over a registry of three subscriptions
(with parseable endpoints) whose delivery attempts yield a success, a 410
rejection and a timeout respectively reports deliveredCount=1 and
failedCount=2 as the claim says, but — the removal guard at server.py:181
being dead code — contrary to the claim the 410 subscription is NOT
removed: the registry keeps all three entries, the reported total is 3,
and the removed-endpoints list stays empty. -/
theorem spec_c2 (email : String) (payload : NotifJson) (s1 s2 s3 : Subscription)
    (oracle : Nat → Outcome)
    (hc1 : ∃ c, get_vapid_claims email s1.endpoint = Except.ok c)
    (hc2 : ∃ c, get_vapid_claims email s2.endpoint = Except.ok c)
    (hc3 : ∃ c, get_vapid_claims email s3.endpoint = Except.ok c)
    (ho0 : oracle 0 = Outcome.success)
    (ho1 : oracle 1 = Outcome.webPushErr (some 410))
    (ho2 : oracle 2 = Outcome.otherErr) :
    (send_notification_to_all email payload [s1, s2, s3] oracle).resp.success_count = 1
    ∧ (send_notification_to_all email payload [s1, s2, s3] oracle).resp.failure_count = 2
    ∧ (send_notification_to_all email payload [s1, s2, s3] oracle).registry = [s1, s2, s3]
    ∧ (send_notification_to_all email payload [s1, s2, s3] oracle).resp.total_subscriptions = 3
    ∧ (send_notification_to_all email payload [s1, s2, s3] oracle).resp.failed_subscriptions
        = [] := by
  obtain ⟨c1, hg1⟩ := hc1
  obtain ⟨c2, hg2⟩ := hc2
  obtain ⟨c3, hg3⟩ := hc3
  simp [send_notification_to_all, sendLoop, attemptStep, hg1, hg2, hg3,
    ho0, ho1, ho2, responseTruthy]

/-- C2 (witness): the three-subscription scenario at concrete endpoints
with the concrete outcome assignment {success, 410, timeout}: counts are
1 and 2 but nothing is removed. -/
theorem spec_c2_witness :
    (send_notification_to_all "mailto:w@e.x" testPayload
        [⟨"https://push.example/a", none, []⟩, ⟨"https://push.example/b", none, []⟩,
          ⟨"https://push.example/c", none, []⟩]
        (fun i => if i = 0 then Outcome.success
          else if i = 1 then Outcome.webPushErr (some 410) else Outcome.otherErr)).resp.success_count
      = 1
    ∧ (send_notification_to_all "mailto:w@e.x" testPayload
        [⟨"https://push.example/a", none, []⟩, ⟨"https://push.example/b", none, []⟩,
          ⟨"https://push.example/c", none, []⟩]
        (fun i => if i = 0 then Outcome.success
          else if i = 1 then Outcome.webPushErr (some 410) else Outcome.otherErr)).resp.failure_count
      = 2
    ∧ (send_notification_to_all "mailto:w@e.x" testPayload
        [⟨"https://push.example/a", none, []⟩, ⟨"https://push.example/b", none, []⟩,
          ⟨"https://push.example/c", none, []⟩]
        (fun i => if i = 0 then Outcome.success
          else if i = 1 then Outcome.webPushErr (some 410) else Outcome.otherErr)).registry
      = [⟨"https://push.example/a", none, []⟩, ⟨"https://push.example/b", none, []⟩,
          ⟨"https://push.example/c", none, []⟩]
    ∧ (send_notification_to_all "mailto:w@e.x" testPayload
        [⟨"https://push.example/a", none, []⟩, ⟨"https://push.example/b", none, []⟩,
          ⟨"https://push.example/c", none, []⟩]
        (fun i => if i = 0 then Outcome.success
          else if i = 1 then Outcome.webPushErr (some 410) else Outcome.otherErr)).resp.total_subscriptions
      = 3
    ∧ (send_notification_to_all "mailto:w@e.x" testPayload
        [⟨"https://push.example/a", none, []⟩, ⟨"https://push.example/b", none, []⟩,
          ⟨"https://push.example/c", none, []⟩]
        (fun i => if i = 0 then Outcome.success
          else if i = 1 then Outcome.webPushErr (some 410) else Outcome.otherErr)).resp.failed_subscriptions
      = [] :=
  spec_c2 "mailto:w@e.x" testPayload
    ⟨"https://push.example/a", none, []⟩ ⟨"https://push.example/b", none, []⟩
    ⟨"https://push.example/c", none, []⟩
    (fun i => if i = 0 then Outcome.success
      else if i = 1 then Outcome.webPushErr (some 410) else Outcome.otherErr)
    ⟨⟨"mailto:w@e.x", "https://push.example"⟩, by decide⟩
    ⟨⟨"mailto:w@e.x", "https://push.example"⟩, by decide⟩
    ⟨⟨"mailto:w@e.x", "https://push.example"⟩, by decide⟩
    rfl rfl rfl

/-- C8: on a non-empty registry, a broadcast processes every snapshot entry
(each of the n attempts is counted exactly once, whatever its outcome, so
no failure aborts the loop) and returns a single 200 aggregate whose total
is the post-removal registry size; at the route level the result is a
success, not an error. -/
theorem spec_c8 (email : String) (payload : NotifJson) (regs : List Subscription)
    (oracle : Nat → Outcome) (hne : regs ≠ []) :
    (send_notification_to_all email payload regs oracle).resp.status = 200
    ∧ (send_notification_to_all email payload regs oracle).resp.success = true
    ∧ (send_notification_to_all email payload regs oracle).resp.success_count
        + (send_notification_to_all email payload regs oracle).resp.failure_count
      = regs.length
    ∧ (send_notification_to_all email payload regs oracle).resp.total_subscriptions
        = (send_notification_to_all email payload regs oracle).registry.length
    ∧ (test_notification email regs oracle).result
        = Except.ok (send_notification_to_all email testPayload regs oracle).resp := by
  refine ⟨rfl, rfl, ?_, rfl, ?_⟩
  · have h := sendLoop_counts email oracle regs 0 ⟨0, 0, [], regs, []⟩
    simpa using h
  · cases regs with
    | nil => exact absurd rfl hne
    | cons x xs => rfl

/-- C8 (witness): a concrete two-subscription broadcast in which every
attempt fails still yields the 200 aggregate with both attempts counted. -/
theorem spec_c8_witness :
    (send_notification_to_all "mailto:w@e.x" testPayload
        [⟨"https://push.example/a", none, []⟩, ⟨"https://push.example/b", none, []⟩]
        (fun _ => Outcome.otherErr)).resp.status = 200
    ∧ (send_notification_to_all "mailto:w@e.x" testPayload
        [⟨"https://push.example/a", none, []⟩, ⟨"https://push.example/b", none, []⟩]
        (fun _ => Outcome.otherErr)).resp.success = true
    ∧ (send_notification_to_all "mailto:w@e.x" testPayload
        [⟨"https://push.example/a", none, []⟩, ⟨"https://push.example/b", none, []⟩]
        (fun _ => Outcome.otherErr)).resp.success_count
      + (send_notification_to_all "mailto:w@e.x" testPayload
        [⟨"https://push.example/a", none, []⟩, ⟨"https://push.example/b", none, []⟩]
        (fun _ => Outcome.otherErr)).resp.failure_count = 2
    ∧ (send_notification_to_all "mailto:w@e.x" testPayload
        [⟨"https://push.example/a", none, []⟩, ⟨"https://push.example/b", none, []⟩]
        (fun _ => Outcome.otherErr)).resp.total_subscriptions
      = (send_notification_to_all "mailto:w@e.x" testPayload
        [⟨"https://push.example/a", none, []⟩, ⟨"https://push.example/b", none, []⟩]
        (fun _ => Outcome.otherErr)).registry.length
    ∧ (test_notification "mailto:w@e.x"
        [⟨"https://push.example/a", none, []⟩, ⟨"https://push.example/b", none, []⟩]
        (fun _ => Outcome.otherErr)).result
      = Except.ok (send_notification_to_all "mailto:w@e.x" testPayload
        [⟨"https://push.example/a", none, []⟩, ⟨"https://push.example/b", none, []⟩]
        (fun _ => Outcome.otherErr)).resp :=
  spec_c8 "mailto:w@e.x" testPayload
    [⟨"https://push.example/a", none, []⟩, ⟨"https://push.example/b", none, []⟩]
    (fun _ => Outcome.otherErr) (by decide)

/-- C10: broadcast accounting is conservative — over any snapshot of n
subscriptions the delivered and failed counts sum to exactly n, and the
reported total equals the pre-broadcast registry size minus the number of
removed endpoints (each recorded removal shrinks the registry by exactly
one). -/
theorem spec_c10 (email : String) (payload : NotifJson) (regs : List Subscription)
    (oracle : Nat → Outcome) :
    (send_notification_to_all email payload regs oracle).resp.success_count
        + (send_notification_to_all email payload regs oracle).resp.failure_count
      = regs.length
    ∧ (send_notification_to_all email payload regs oracle).registry.length
        + (send_notification_to_all email payload regs oracle).resp.failed_subscriptions.length
      = regs.length
    ∧ (send_notification_to_all email payload regs oracle).resp.total_subscriptions
      = regs.length
        - (send_notification_to_all email payload regs oracle).resp.failed_subscriptions.length := by
  have hcounts := sendLoop_counts email oracle regs 0 ⟨0, 0, [], regs, []⟩
  have hinv : regInv regs ⟨0, 0, [], regs, []⟩ := fun a => le_refl _
  have hreg := sendLoop_registry_len email oracle regs 0 ⟨0, 0, [], regs, []⟩ hinv
  simp only [SendState.mk.injEq] at hcounts hreg
  refine ⟨?_, ?_, ?_⟩
  · show (sendLoop email oracle 0 regs ⟨0, 0, [], regs, []⟩).success_count
        + (sendLoop email oracle 0 regs ⟨0, 0, [], regs, []⟩).failure_count = regs.length
    simpa using hcounts
  · show (sendLoop email oracle 0 regs ⟨0, 0, [], regs, []⟩).registry.length
        + (sendLoop email oracle 0 regs ⟨0, 0, [], regs, []⟩).failed_subscriptions.length
      = regs.length
    simpa using hreg
  · show (sendLoop email oracle 0 regs ⟨0, 0, [], regs, []⟩).registry.length
      = regs.length
        - (sendLoop email oracle 0 regs ⟨0, 0, [], regs, []⟩).failed_subscriptions.length
    have h2 : (sendLoop email oracle 0 regs ⟨0, 0, [], regs, []⟩).registry.length
        + (sendLoop email oracle 0 regs ⟨0, 0, [], regs, []⟩).failed_subscriptions.length
      = regs.length := by simpa using hreg
    omega
